import Mathlib

/-!
Verification of the goexpert-rate-limiter decision engine
(`pkg/ratelimiter`): the `RateLimiter.CheckLimit` algorithm, the
`getKeyAndLimit` key/limit resolution, and the storage contract it
depends on, shallowly embedded in Lean.

Timestamps and durations are modelled as integers (nanoseconds, like
the Go `time.Duration`); `time.Second` becomes the constant
`timeSecond`.  The behaviour of the store follows the Storage contract and
the Redis reference backend: a per-key counter with an expiry
deadline, and a per-key block flag with an expiry deadline.  Storage
failures (StorageUnavailable) are injected through a `FailSpec`
oracle saying which operation fails; a failed operation applies no
effect, per the contract (each call either fully applies its effect
or reports an error).  Every storage call made by `checkLimit` is
recorded in an event list so that claims about which calls occur
("no increment while blocked", "exactly one setBlock") are statable.
-/

/-- The Go constant `time.Second`, in nanoseconds. -/
def timeSecond : Int := 1000000000

/-- The store state: per-key counter (value together with its expiry
deadline) and per-key block deadline, as in the Redis backend
(`rate_limit:<key>` counters, `blocked:<key>` flags). -/
structure Store where
  counts : String → Option (Int × Int)
  blocks : String → Option Int

/-- The empty store: no counters, no blocks. -/
def Store.empty : Store := ⟨fun _ => none, fun _ => none⟩

/-- Current counter value for `key` at time `now`: the stored value
while its expiry deadline has not passed, otherwise 0 (absent or
expired, as `RedisStorage.Get` reports). -/
def Store.currentCount (s : Store) (key : String) (now : Int) : Int :=
  match s.counts key with
  | none => 0
  | some (v, d) => if now < d then v else 0

/-- `RedisStorage.IsBlocked`: whether the block flag for `key` is
still live at time `now` (the flag self-expires at its deadline). -/
def Store.isBlockedAt (s : Store) (key : String) (now : Int) : Bool :=
  match s.blocks key with
  | none => false
  | some d => decide (now < d)

/-- `RedisStorage.Increment`: atomically increment the counter for
`key` (restarting from 0 if absent or expired) and reset its expiry
to `now + window`; returns the post-increment count and the new
store. -/
def Store.increment (s : Store) (key : String) (window now : Int) :
    Int × Store :=
  let c := s.currentCount key now + 1
  (c, { s with
        counts := fun k => if k = key then some (c, now + window) else s.counts k })

/-- `RedisStorage.SetBlock`: mark `key` blocked until `now + duration`,
overwriting any prior block state. -/
def Store.setBlock (s : Store) (key : String) (duration now : Int) : Store :=
  { s with
    blocks := fun k => if k = key then some (now + duration) else s.blocks k }

/-- Which storage operations fail with `StorageUnavailable` (backend
unreachable / timeout).  A failed operation applies no effect. -/
structure FailSpec where
  isBlockedFails : Bool
  incrementFails : Bool
  setBlockFails : Bool

/-- The schedule on which no storage operation fails. -/
def FailSpec.none : FailSpec := ⟨false, false, false⟩

/-- Fallible `IsBlocked` as seen by the engine. -/
def Store.isBlockedOp (fs : FailSpec) (s : Store) (key : String) (now : Int) :
    Except String Bool :=
  if fs.isBlockedFails then .error "storage unavailable"
  else .ok (s.isBlockedAt key now)

/-- Fallible `Increment` as seen by the engine. -/
def Store.incrementOp (fs : FailSpec) (s : Store) (key : String) (window now : Int) :
    Except String (Int × Store) :=
  if fs.incrementFails then .error "storage unavailable"
  else .ok (s.increment key window now)

/-- Fallible `SetBlock` as seen by the engine. -/
def Store.setBlockOp (fs : FailSpec) (s : Store) (key : String) (duration now : Int) :
    Except String Store :=
  if fs.setBlockFails then .error "storage unavailable"
  else .ok (s.setBlock key duration now)

/-- One storage call made by the engine, recorded for call-counting
claims. -/
inductive StoreEvent where
  | isBlockedCall (key : String)
  | incrementCall (key : String) (window : Int)
  | setBlockCall (key : String) (duration : Int)
deriving DecidableEq, Repr

/-- `LimitResult` from `rate_limiter.go`. -/
structure LimitResult where
  allowed : Bool
  remaining : Int
  resetTime : Int
  blocked : Bool
deriving DecidableEq, Repr

/-- `RateLimiter` from `rate_limiter.go`: the immutable limit policy.
The Go map `tokenLimits` is modelled as a partial function. -/
structure RateLimiter where
  defaultIPLimit : Int
  defaultTokenLimit : Int
  blockDuration : Int
  tokenLimits : String → Option Int

/-- `RateLimiter.getKeyAndLimit`: resolve `(ip, token)` to the rate
key and the limit, token limits taking priority over IP limits. -/
def RateLimiter.getKeyAndLimit (rl : RateLimiter) (ip token : String) :
    String × Int :=
  if token ≠ "" then
    match rl.tokenLimits token with
    | some limit => ("token:" ++ token, limit)
    | Option.none => ("token:" ++ token, rl.defaultTokenLimit)
  else
    ("ip:" ++ ip, rl.defaultIPLimit)

/-- Everything a `CheckLimit` call produces: the Go return pair
`(*LimitResult, error)` (exactly one side is set at each `return`
statement), the store state after the call, and the storage calls
made. -/
structure CheckOutcome where
  result : Option LimitResult
  errMsg : Option String
  store : Store
  events : List StoreEvent

/-- `RateLimiter.CheckLimit`, the decision algorithm: resolve key and
limit; consult the block flag (short-circuiting if blocked); else
increment the 1-second-window counter; if the post-increment count
exceeds the limit, set the block and reject; else allow with
`remaining = limit - count` clamped at 0. -/
def RateLimiter.checkLimit (rl : RateLimiter) (fs : FailSpec) (s : Store)
    (now : Int) (ip token : String) : CheckOutcome :=
  let (key, limit) := rl.getKeyAndLimit ip token
  match s.isBlockedOp fs key now with
  | .error e =>
    ⟨none, some ("failed to check block status: " ++ e), s,
      [.isBlockedCall key]⟩
  | .ok blocked =>
    if blocked then
      ⟨some ⟨false, 0, now + rl.blockDuration, true⟩, none, s,
        [.isBlockedCall key]⟩
    else
      match s.incrementOp fs key timeSecond now with
      | .error e =>
        ⟨none, some ("failed to increment counter: " ++ e), s,
          [.isBlockedCall key, .incrementCall key timeSecond]⟩
      | .ok (count, s') =>
        if count > limit then
          match s'.setBlockOp fs key rl.blockDuration now with
          | .error e =>
            ⟨none, some ("failed to set block: " ++ e), s',
              [.isBlockedCall key, .incrementCall key timeSecond,
               .setBlockCall key rl.blockDuration]⟩
          | .ok s'' =>
            ⟨some ⟨false, 0, now + rl.blockDuration, true⟩, none, s'',
              [.isBlockedCall key, .incrementCall key timeSecond,
               .setBlockCall key rl.blockDuration]⟩
        else
          let remaining := limit - count
          let remaining := if remaining < 0 then 0 else remaining
          ⟨some ⟨true, remaining, now + timeSecond, false⟩, none, s',
            [.isBlockedCall key, .incrementCall key timeSecond]⟩

/-- `n` sequential `checkLimit` calls for the same `(ip, token)` at
time `now` (all inside one counting window), threading the store;
returns the final store and the outcomes in call order. -/
def RateLimiter.checkSeq (rl : RateLimiter) (fs : FailSpec) (now : Int)
    (ip token : String) : Nat → Store → Store × List CheckOutcome
  | 0, s => (s, [])
  | n + 1, s =>
    let o := rl.checkLimit fs s now ip token
    let (sFin, os) := rl.checkSeq fs now ip token n o.store
    (sFin, o :: os)

/-- Number of `setBlock` calls in an event list. -/
def countSetBlock (es : List StoreEvent) : Nat :=
  es.countP fun e => match e with
    | .setBlockCall _ _ => true
    | _ => false

/-! ## Store-level lemmas -/

lemma Store.increment_blocks (s : Store) (key : String) (w now : Int) :
    ((s.increment key w now).2).blocks = s.blocks := rfl

lemma Store.increment_isBlockedAt (s : Store) (key : String) (w now : Int)
    (k : String) (t : Int) :
    ((s.increment key w now).2).isBlockedAt k t = s.isBlockedAt k t := rfl

lemma Store.increment_fst (s : Store) (key : String) (w now : Int) :
    (s.increment key w now).1 = s.currentCount key now + 1 := rfl

lemma Store.increment_counts_self (s : Store) (key : String) (w now : Int) :
    ((s.increment key w now).2).counts key
      = some (s.currentCount key now + 1, now + w) := by
  simp [Store.increment]

lemma Store.increment_counts_other (s : Store) (key : String) (w now : Int)
    (k : String) (hk : k ≠ key) :
    ((s.increment key w now).2).counts k = s.counts k := by
  simp [Store.increment, hk]

lemma Store.increment_currentCount_self (s : Store) (key : String) (w now : Int)
    (hw : 0 < w) :
    ((s.increment key w now).2).currentCount key now
      = s.currentCount key now + 1 := by
  simp [Store.increment, Store.currentCount]
  omega

lemma Store.setBlock_counts (s : Store) (key : String) (d now : Int) :
    (s.setBlock key d now).counts = s.counts := rfl

lemma Store.setBlock_blocks_self (s : Store) (key : String) (d now : Int) :
    (s.setBlock key d now).blocks key = some (now + d) := by
  simp [Store.setBlock]

lemma Store.setBlock_blocks_other (s : Store) (key : String) (d now : Int)
    (k : String) (hk : k ≠ key) :
    (s.setBlock key d now).blocks k = s.blocks k := by
  simp [Store.setBlock, hk]

/-! ## Step lemmas: the four return paths of `checkLimit` -/

lemma checkLimit_blocked_eq (rl : RateLimiter) (fs : FailSpec) (s : Store)
    (now : Int) (ip token : String)
    (hfb : fs.isBlockedFails = false)
    (hb : s.isBlockedAt (rl.getKeyAndLimit ip token).1 now = true) :
    rl.checkLimit fs s now ip token =
      ⟨some ⟨false, 0, now + rl.blockDuration, true⟩, none, s,
        [.isBlockedCall (rl.getKeyAndLimit ip token).1]⟩ := by
  rcases hkl : rl.getKeyAndLimit ip token with ⟨key, limit⟩
  rw [hkl] at hb
  simp only at hb
  simp [RateLimiter.checkLimit, hkl, Store.isBlockedOp, hfb, hb]

lemma checkLimit_allowed_eq (rl : RateLimiter) (fs : FailSpec) (s : Store)
    (now : Int) (ip token : String)
    (hfb : fs.isBlockedFails = false) (hfi : fs.incrementFails = false)
    (hb : s.isBlockedAt (rl.getKeyAndLimit ip token).1 now = false)
    (hc : s.currentCount (rl.getKeyAndLimit ip token).1 now + 1
            ≤ (rl.getKeyAndLimit ip token).2) :
    rl.checkLimit fs s now ip token =
      ⟨some ⟨true,
          (rl.getKeyAndLimit ip token).2
            - (s.currentCount (rl.getKeyAndLimit ip token).1 now + 1),
          now + timeSecond, false⟩, none,
        (s.increment (rl.getKeyAndLimit ip token).1 timeSecond now).2,
        [.isBlockedCall (rl.getKeyAndLimit ip token).1,
         .incrementCall (rl.getKeyAndLimit ip token).1 timeSecond]⟩ := by
  rcases hkl : rl.getKeyAndLimit ip token with ⟨key, limit⟩
  rw [hkl] at hb hc
  simp only at hb hc
  simp [RateLimiter.checkLimit, hkl, Store.isBlockedOp, Store.incrementOp,
    Store.increment_fst, hfb, hfi, hb,
    show ¬(limit < s.currentCount key now + 1) by omega,
    show ¬(limit - (s.currentCount key now + 1) < 0) by omega,
    Store.increment]

lemma checkLimit_exceeded_eq (rl : RateLimiter) (fs : FailSpec) (s : Store)
    (now : Int) (ip token : String)
    (hfb : fs.isBlockedFails = false) (hfi : fs.incrementFails = false)
    (hsb : fs.setBlockFails = false)
    (hb : s.isBlockedAt (rl.getKeyAndLimit ip token).1 now = false)
    (hc : (rl.getKeyAndLimit ip token).2
            < s.currentCount (rl.getKeyAndLimit ip token).1 now + 1) :
    rl.checkLimit fs s now ip token =
      ⟨some ⟨false, 0, now + rl.blockDuration, true⟩, none,
        ((s.increment (rl.getKeyAndLimit ip token).1 timeSecond now).2).setBlock
          (rl.getKeyAndLimit ip token).1 rl.blockDuration now,
        [.isBlockedCall (rl.getKeyAndLimit ip token).1,
         .incrementCall (rl.getKeyAndLimit ip token).1 timeSecond,
         .setBlockCall (rl.getKeyAndLimit ip token).1 rl.blockDuration]⟩ := by
  rcases hkl : rl.getKeyAndLimit ip token with ⟨key, limit⟩
  rw [hkl] at hb hc
  simp only at hb hc
  simp [RateLimiter.checkLimit, hkl, Store.isBlockedOp, Store.incrementOp,
    Store.setBlockOp, Store.increment_fst, hfb, hfi, hsb, hb, hc,
    Store.increment]

lemma checkLimit_isBlocked_err_eq (rl : RateLimiter) (fs : FailSpec) (s : Store)
    (now : Int) (ip token : String)
    (hfb : fs.isBlockedFails = true) :
    rl.checkLimit fs s now ip token =
      ⟨none, some "failed to check block status: storage unavailable", s,
        [.isBlockedCall (rl.getKeyAndLimit ip token).1]⟩ := by
  rcases hkl : rl.getKeyAndLimit ip token with ⟨key, limit⟩
  simp [RateLimiter.checkLimit, hkl, Store.isBlockedOp, hfb]

lemma checkLimit_increment_err_eq (rl : RateLimiter) (fs : FailSpec) (s : Store)
    (now : Int) (ip token : String)
    (hfb : fs.isBlockedFails = false) (hfi : fs.incrementFails = true)
    (hb : s.isBlockedAt (rl.getKeyAndLimit ip token).1 now = false) :
    rl.checkLimit fs s now ip token =
      ⟨none, some "failed to increment counter: storage unavailable", s,
        [.isBlockedCall (rl.getKeyAndLimit ip token).1,
         .incrementCall (rl.getKeyAndLimit ip token).1 timeSecond]⟩ := by
  rcases hkl : rl.getKeyAndLimit ip token with ⟨key, limit⟩
  rw [hkl] at hb
  simp only at hb
  simp [RateLimiter.checkLimit, hkl, Store.isBlockedOp, Store.incrementOp,
    hfb, hfi, hb]

lemma checkLimit_setBlock_err_eq (rl : RateLimiter) (fs : FailSpec) (s : Store)
    (now : Int) (ip token : String)
    (hfb : fs.isBlockedFails = false) (hfi : fs.incrementFails = false)
    (hsb : fs.setBlockFails = true)
    (hb : s.isBlockedAt (rl.getKeyAndLimit ip token).1 now = false)
    (hc : (rl.getKeyAndLimit ip token).2
            < s.currentCount (rl.getKeyAndLimit ip token).1 now + 1) :
    rl.checkLimit fs s now ip token =
      ⟨none, some "failed to set block: storage unavailable",
        (s.increment (rl.getKeyAndLimit ip token).1 timeSecond now).2,
        [.isBlockedCall (rl.getKeyAndLimit ip token).1,
         .incrementCall (rl.getKeyAndLimit ip token).1 timeSecond,
         .setBlockCall (rl.getKeyAndLimit ip token).1 rl.blockDuration]⟩ := by
  rcases hkl : rl.getKeyAndLimit ip token with ⟨key, limit⟩
  rw [hkl] at hb hc
  simp only at hb hc
  simp [RateLimiter.checkLimit, hkl, Store.isBlockedOp, Store.incrementOp,
    Store.setBlockOp, Store.increment_fst, hfb, hfi, hsb, hb, hc,
    Store.increment]

/-- A `checkLimit` call touches the store only at its resolved key:
counters and block flags of every other key are unchanged. -/
lemma checkLimit_frame (rl : RateLimiter) (fs : FailSpec) (s : Store)
    (now : Int) (ip token : String) (k : String)
    (hk : k ≠ (rl.getKeyAndLimit ip token).1) :
    (rl.checkLimit fs s now ip token).store.counts k = s.counts k ∧
    (rl.checkLimit fs s now ip token).store.blocks k = s.blocks k := by
  cases hfb : fs.isBlockedFails with
  | true =>
    rw [checkLimit_isBlocked_err_eq rl fs s now ip token hfb]
    exact ⟨rfl, rfl⟩
  | false =>
    cases hb : s.isBlockedAt (rl.getKeyAndLimit ip token).1 now with
    | true =>
      rw [checkLimit_blocked_eq rl fs s now ip token hfb hb]
      exact ⟨rfl, rfl⟩
    | false =>
      cases hfi : fs.incrementFails with
      | true =>
        rw [checkLimit_increment_err_eq rl fs s now ip token hfb hfi hb]
        exact ⟨rfl, rfl⟩
      | false =>
        by_cases hc : (rl.getKeyAndLimit ip token).2
            < s.currentCount (rl.getKeyAndLimit ip token).1 now + 1
        · cases hsb : fs.setBlockFails with
          | true =>
            rw [checkLimit_setBlock_err_eq rl fs s now ip token hfb hfi hsb hb hc]
            exact ⟨Store.increment_counts_other s _ timeSecond now k hk,
              by rw [Store.increment_blocks]⟩
          | false =>
            rw [checkLimit_exceeded_eq rl fs s now ip token hfb hfi hsb hb hc]
            constructor
            · rw [Store.setBlock_counts]
              exact Store.increment_counts_other s _ timeSecond now k hk
            · rw [Store.setBlock_blocks_other _ _ _ _ _ hk, Store.increment_blocks]
        · push_neg at hc
          rw [checkLimit_allowed_eq rl fs s now ip token hfb hfi hb hc]
          exact ⟨Store.increment_counts_other s _ timeSecond now k hk,
            by rw [Store.increment_blocks]⟩

/-- The two key namespaces are distinct as strings. -/
lemma ip_key_ne_token_key (ip token : String) :
    ("ip:" ++ ip) ≠ ("token:" ++ token) := by
  intro h
  have h2 := congrArg String.data h
  rw [String.data_append, String.data_append] at h2
  have e1 : "ip:".data = ['i', 'p', ':'] := rfl
  have e2 : "token:".data = ['t', 'o', 'k', 'e', 'n', ':'] := rfl
  rw [e1, e2] at h2
  simp at h2

/-- For a non-empty token, the resolved key is in the token namespace. -/
lemma getKeyAndLimit_key_token (rl : RateLimiter) (ip token : String)
    (h : token ≠ "") :
    (rl.getKeyAndLimit ip token).1 = "token:" ++ token := by
  unfold RateLimiter.getKeyAndLimit
  simp only [h, if_true, ne_eq, not_false_iff, ite_true]
  cases rl.tokenLimits token <;> simp

/-- For an empty token, the resolved key is in the IP namespace. -/
lemma getKeyAndLimit_key_ip (rl : RateLimiter) (ip : String) :
    (rl.getKeyAndLimit ip "").1 = "ip:" ++ ip := by
  unfold RateLimiter.getKeyAndLimit
  simp

/-! ## Sample configuration and store used by the witnesses -/

/-- A concrete limit policy: IP limit 3, token limit 100, 10-minute
block, one token override. -/
def rlSample : RateLimiter :=
  ⟨3, 100, 600 * timeSecond, fun t => if t = "abc123" then some 50 else Option.none⟩

/-- A concrete store in which the key `"ip:9.9.9.9"` is blocked until
time 50 and carries no counter. -/
def sBlocked : Store :=
  ⟨fun _ => Option.none, fun k => if k = "ip:9.9.9.9" then some 50 else Option.none⟩

/-! ## C2: key-and-limit resolution -/

/-- C2: key-and-limit resolution is a pure function with strict token
priority: for a non-empty token the key is `"token:" + token` and the
limit is the override when the token is in the overrides map, else
`defaultTokenLimit`, and the `ip` argument has no effect on the
result; for an empty token the key is `"ip:" + ip` and the limit is
`defaultIPLimit`. -/
theorem getKeyAndLimit_token_priority (rl : RateLimiter) (ip ip2 token : String)
    (h : token ≠ "") :
    rl.getKeyAndLimit ip token
      = ("token:" ++ token, (rl.tokenLimits token).getD rl.defaultTokenLimit) ∧
    rl.getKeyAndLimit ip token = rl.getKeyAndLimit ip2 token ∧
    rl.getKeyAndLimit ip "" = ("ip:" ++ ip, rl.defaultIPLimit) := by
  unfold RateLimiter.getKeyAndLimit
  refine ⟨?_, ?_, by simp⟩
  · simp only [h, ne_eq, not_false_iff, ite_true]
    cases rl.tokenLimits token <;> simp
  · simp [h]

/-- C2 witness: the resolution evaluated for token `"abc123"` from two
different IPs, and for an empty token. -/
theorem getKeyAndLimit_token_priority_witness :
    "abc123" ≠ "" ∧
    (rlSample.getKeyAndLimit "1.2.3.4" "abc123"
        = ("token:" ++ "abc123",
            (rlSample.tokenLimits "abc123").getD rlSample.defaultTokenLimit) ∧
      rlSample.getKeyAndLimit "1.2.3.4" "abc123"
        = rlSample.getKeyAndLimit "5.6.7.8" "abc123" ∧
      rlSample.getKeyAndLimit "1.2.3.4" ""
        = ("ip:" ++ "1.2.3.4", rlSample.defaultIPLimit)) :=
  ⟨by decide,
    getKeyAndLimit_token_priority rlSample "1.2.3.4" "5.6.7.8" "abc123" (by decide)⟩

/-! ## C8: IP and token namespaces are disjoint -/

/-- The decision of a `checkLimit` call reads the store only at its
resolved key: two stores that agree there produce the same result,
error, and storage calls. -/
lemma checkLimit_congr_at_key (rl : RateLimiter) (fs : FailSpec) (now : Int)
    (ip token : String) (s1 s2 : Store)
    (hcnt : s1.counts (rl.getKeyAndLimit ip token).1
              = s2.counts (rl.getKeyAndLimit ip token).1)
    (hblk : s1.blocks (rl.getKeyAndLimit ip token).1
              = s2.blocks (rl.getKeyAndLimit ip token).1) :
    (rl.checkLimit fs s1 now ip token).result
      = (rl.checkLimit fs s2 now ip token).result ∧
    (rl.checkLimit fs s1 now ip token).errMsg
      = (rl.checkLimit fs s2 now ip token).errMsg ∧
    (rl.checkLimit fs s1 now ip token).events
      = (rl.checkLimit fs s2 now ip token).events := by
  have hb12 : s1.isBlockedAt (rl.getKeyAndLimit ip token).1 now
      = s2.isBlockedAt (rl.getKeyAndLimit ip token).1 now := by
    unfold Store.isBlockedAt
    rw [hblk]
  have hcc12 : s1.currentCount (rl.getKeyAndLimit ip token).1 now
      = s2.currentCount (rl.getKeyAndLimit ip token).1 now := by
    unfold Store.currentCount
    rw [hcnt]
  cases hfb : fs.isBlockedFails with
  | true =>
    rw [checkLimit_isBlocked_err_eq rl fs s1 now ip token hfb,
      checkLimit_isBlocked_err_eq rl fs s2 now ip token hfb]
    exact ⟨rfl, rfl, rfl⟩
  | false =>
    cases hb : s2.isBlockedAt (rl.getKeyAndLimit ip token).1 now with
    | true =>
      rw [checkLimit_blocked_eq rl fs s1 now ip token hfb (hb12.trans hb),
        checkLimit_blocked_eq rl fs s2 now ip token hfb hb]
      exact ⟨rfl, rfl, rfl⟩
    | false =>
      have hb1 : s1.isBlockedAt (rl.getKeyAndLimit ip token).1 now = false :=
        hb12.trans hb
      cases hfi : fs.incrementFails with
      | true =>
        rw [checkLimit_increment_err_eq rl fs s1 now ip token hfb hfi hb1,
          checkLimit_increment_err_eq rl fs s2 now ip token hfb hfi hb]
        exact ⟨rfl, rfl, rfl⟩
      | false =>
        by_cases hc : (rl.getKeyAndLimit ip token).2
            < s2.currentCount (rl.getKeyAndLimit ip token).1 now + 1
        · have hc1 : (rl.getKeyAndLimit ip token).2
              < s1.currentCount (rl.getKeyAndLimit ip token).1 now + 1 := by
            rw [hcc12]
            exact hc
          cases hsb : fs.setBlockFails with
          | true =>
            rw [checkLimit_setBlock_err_eq rl fs s1 now ip token hfb hfi hsb hb1 hc1,
              checkLimit_setBlock_err_eq rl fs s2 now ip token hfb hfi hsb hb hc]
            exact ⟨rfl, rfl, rfl⟩
          | false =>
            rw [checkLimit_exceeded_eq rl fs s1 now ip token hfb hfi hsb hb1 hc1,
              checkLimit_exceeded_eq rl fs s2 now ip token hfb hfi hsb hb hc]
            exact ⟨rfl, rfl, rfl⟩
        · push_neg at hc
          have hc1 : s1.currentCount (rl.getKeyAndLimit ip token).1 now + 1
              ≤ (rl.getKeyAndLimit ip token).2 := by
            rw [hcc12]
            exact hc
          rw [checkLimit_allowed_eq rl fs s1 now ip token hfb hfi hb1 hc1,
            checkLimit_allowed_eq rl fs s2 now ip token hfb hfi hb hc]
          exact ⟨by rw [hcc12], rfl, rfl⟩

/-- C8: for all strings `ip` and `token` (including `ip = token`), the
rate key of an IP identity never equals the rate key of a token
identity, and the two namespaces can neither write nor read each
other: a token-identity call leaves the counter and block state of
every IP key untouched (and vice versa); a token-identity decision and
error depend on the store only through the token key, so they are
unchanged by any two stores agreeing there (and vice versa); and in
particular blocking (`setBlock`) or exhausting (`increment`) an IP key
never changes a token-identity decision, nor the other way round. -/
theorem ip_token_keyspaces_disjoint (rl rl2 : RateLimiter) (ip ip2 token : String)
    (h : token ≠ "") :
    (rl.getKeyAndLimit ip "").1 ≠ (rl2.getKeyAndLimit ip2 token).1 ∧
    (∀ (fs : FailSpec) (s : Store) (now : Int),
      (rl2.checkLimit fs s now ip2 token).store.counts (rl.getKeyAndLimit ip "").1
        = s.counts (rl.getKeyAndLimit ip "").1 ∧
      (rl2.checkLimit fs s now ip2 token).store.blocks (rl.getKeyAndLimit ip "").1
        = s.blocks (rl.getKeyAndLimit ip "").1 ∧
      (rl.checkLimit fs s now ip "").store.counts (rl2.getKeyAndLimit ip2 token).1
        = s.counts (rl2.getKeyAndLimit ip2 token).1 ∧
      (rl.checkLimit fs s now ip "").store.blocks (rl2.getKeyAndLimit ip2 token).1
        = s.blocks (rl2.getKeyAndLimit ip2 token).1) ∧
    (∀ (fs : FailSpec) (now : Int) (s1 s2 : Store),
      s1.counts (rl2.getKeyAndLimit ip2 token).1
          = s2.counts (rl2.getKeyAndLimit ip2 token).1 →
      s1.blocks (rl2.getKeyAndLimit ip2 token).1
          = s2.blocks (rl2.getKeyAndLimit ip2 token).1 →
      (rl2.checkLimit fs s1 now ip2 token).result
          = (rl2.checkLimit fs s2 now ip2 token).result ∧
      (rl2.checkLimit fs s1 now ip2 token).errMsg
          = (rl2.checkLimit fs s2 now ip2 token).errMsg) ∧
    (∀ (fs : FailSpec) (now : Int) (s1 s2 : Store),
      s1.counts (rl.getKeyAndLimit ip "").1 = s2.counts (rl.getKeyAndLimit ip "").1 →
      s1.blocks (rl.getKeyAndLimit ip "").1 = s2.blocks (rl.getKeyAndLimit ip "").1 →
      (rl.checkLimit fs s1 now ip "").result = (rl.checkLimit fs s2 now ip "").result ∧
      (rl.checkLimit fs s1 now ip "").errMsg = (rl.checkLimit fs s2 now ip "").errMsg) ∧
    (∀ (fs : FailSpec) (now : Int) (s : Store) (dur w t : Int),
      (rl2.checkLimit fs (s.setBlock (rl.getKeyAndLimit ip "").1 dur t)
            now ip2 token).result
        = (rl2.checkLimit fs s now ip2 token).result ∧
      (rl2.checkLimit fs ((s.increment (rl.getKeyAndLimit ip "").1 w t).2)
            now ip2 token).result
        = (rl2.checkLimit fs s now ip2 token).result ∧
      (rl.checkLimit fs (s.setBlock (rl2.getKeyAndLimit ip2 token).1 dur t)
            now ip "").result
        = (rl.checkLimit fs s now ip "").result ∧
      (rl.checkLimit fs ((s.increment (rl2.getKeyAndLimit ip2 token).1 w t).2)
            now ip "").result
        = (rl.checkLimit fs s now ip "").result) := by
  have hne : (rl.getKeyAndLimit ip "").1 ≠ (rl2.getKeyAndLimit ip2 token).1 := by
    rw [getKeyAndLimit_key_ip, getKeyAndLimit_key_token rl2 ip2 token h]
    exact ip_key_ne_token_key ip token
  refine ⟨hne, fun fs s now => ?_, fun fs now s1 s2 hcnt hblk => ?_,
    fun fs now s1 s2 hcnt hblk => ?_, fun fs now s dur w t => ?_⟩
  · obtain ⟨h1, h2⟩ := checkLimit_frame rl2 fs s now ip2 token _ hne
    obtain ⟨h3, h4⟩ := checkLimit_frame rl fs s now ip "" _ hne.symm
    exact ⟨h1, h2, h3, h4⟩
  · obtain ⟨h1, h2, h3⟩ := checkLimit_congr_at_key rl2 fs now ip2 token s1 s2 hcnt hblk
    exact ⟨h1, h2⟩
  · obtain ⟨h1, h2, h3⟩ := checkLimit_congr_at_key rl fs now ip "" s1 s2 hcnt hblk
    exact ⟨h1, h2⟩
  · refine ⟨?_, ?_, ?_, ?_⟩
    · exact (checkLimit_congr_at_key rl2 fs now ip2 token _ s
        (congrFun (Store.setBlock_counts s _ dur t) _)
        (Store.setBlock_blocks_other s _ dur t _ hne.symm)).1
    · exact (checkLimit_congr_at_key rl2 fs now ip2 token _ s
        (Store.increment_counts_other s _ w t _ hne.symm)
        (congrFun (Store.increment_blocks s _ w t) _)).1
    · exact (checkLimit_congr_at_key rl fs now ip "" _ s
        (congrFun (Store.setBlock_counts s _ dur t) _)
        (Store.setBlock_blocks_other s _ dur t _ hne)).1
    · exact (checkLimit_congr_at_key rl fs now ip "" _ s
        (Store.increment_counts_other s _ w t _ hne)
        (congrFun (Store.increment_blocks s _ w t) _)).1

/-- C8 witness: instantiated at `ip = "x"` and `token = "x"`, the
deliberately colliding strings. -/
theorem ip_token_keyspaces_disjoint_witness :
    "x" ≠ "" ∧
    ((rlSample.getKeyAndLimit "x" "").1 ≠ (rlSample.getKeyAndLimit "x" "x").1 ∧
      (∀ (fs : FailSpec) (s : Store) (now : Int),
        (rlSample.checkLimit fs s now "x" "x").store.counts
            (rlSample.getKeyAndLimit "x" "").1
          = s.counts (rlSample.getKeyAndLimit "x" "").1 ∧
        (rlSample.checkLimit fs s now "x" "x").store.blocks
            (rlSample.getKeyAndLimit "x" "").1
          = s.blocks (rlSample.getKeyAndLimit "x" "").1 ∧
        (rlSample.checkLimit fs s now "x" "").store.counts
            (rlSample.getKeyAndLimit "x" "x").1
          = s.counts (rlSample.getKeyAndLimit "x" "x").1 ∧
        (rlSample.checkLimit fs s now "x" "").store.blocks
            (rlSample.getKeyAndLimit "x" "x").1
          = s.blocks (rlSample.getKeyAndLimit "x" "x").1) ∧
      (∀ (fs : FailSpec) (now : Int) (s1 s2 : Store),
        s1.counts (rlSample.getKeyAndLimit "x" "x").1
            = s2.counts (rlSample.getKeyAndLimit "x" "x").1 →
        s1.blocks (rlSample.getKeyAndLimit "x" "x").1
            = s2.blocks (rlSample.getKeyAndLimit "x" "x").1 →
        (rlSample.checkLimit fs s1 now "x" "x").result
            = (rlSample.checkLimit fs s2 now "x" "x").result ∧
        (rlSample.checkLimit fs s1 now "x" "x").errMsg
            = (rlSample.checkLimit fs s2 now "x" "x").errMsg) ∧
      (∀ (fs : FailSpec) (now : Int) (s1 s2 : Store),
        s1.counts (rlSample.getKeyAndLimit "x" "").1
            = s2.counts (rlSample.getKeyAndLimit "x" "").1 →
        s1.blocks (rlSample.getKeyAndLimit "x" "").1
            = s2.blocks (rlSample.getKeyAndLimit "x" "").1 →
        (rlSample.checkLimit fs s1 now "x" "").result
            = (rlSample.checkLimit fs s2 now "x" "").result ∧
        (rlSample.checkLimit fs s1 now "x" "").errMsg
            = (rlSample.checkLimit fs s2 now "x" "").errMsg) ∧
      (∀ (fs : FailSpec) (now : Int) (s : Store) (dur w t : Int),
        (rlSample.checkLimit fs (s.setBlock (rlSample.getKeyAndLimit "x" "").1 dur t)
              now "x" "x").result
          = (rlSample.checkLimit fs s now "x" "x").result ∧
        (rlSample.checkLimit fs ((s.increment (rlSample.getKeyAndLimit "x" "").1 w t).2)
              now "x" "x").result
          = (rlSample.checkLimit fs s now "x" "x").result ∧
        (rlSample.checkLimit fs (s.setBlock (rlSample.getKeyAndLimit "x" "x").1 dur t)
              now "x" "").result
          = (rlSample.checkLimit fs s now "x" "").result ∧
        (rlSample.checkLimit fs ((s.increment (rlSample.getKeyAndLimit "x" "x").1 w t).2)
              now "x" "").result
          = (rlSample.checkLimit fs s now "x" "").result)) :=
  ⟨by decide, ip_token_keyspaces_disjoint rlSample rlSample "x" "x" "x" (by decide)⟩

/-! ## C9: decision invariant over all three success paths -/

/-- C9: every `LimitResult` returned by a successful `checkLimit` call
satisfies `allowed = !blocked`, `remaining ≥ 0`, and `allowed = false`
implies `remaining = 0`. -/
theorem checkLimit_result_invariant (rl : RateLimiter) (fs : FailSpec) (s : Store)
    (now : Int) (ip token : String) (r : LimitResult)
    (hr : (rl.checkLimit fs s now ip token).result = some r) :
    r.allowed = !r.blocked ∧ 0 ≤ r.remaining ∧
      (r.allowed = false → r.remaining = 0) := by
  cases hfb : fs.isBlockedFails with
  | true =>
    rw [checkLimit_isBlocked_err_eq rl fs s now ip token hfb] at hr
    simp at hr
  | false =>
    cases hb : s.isBlockedAt (rl.getKeyAndLimit ip token).1 now with
    | true =>
      rw [checkLimit_blocked_eq rl fs s now ip token hfb hb] at hr
      simp only [Option.some.injEq] at hr
      subst hr
      simp
    | false =>
      cases hfi : fs.incrementFails with
      | true =>
        rw [checkLimit_increment_err_eq rl fs s now ip token hfb hfi hb] at hr
        simp at hr
      | false =>
        by_cases hc : (rl.getKeyAndLimit ip token).2
            < s.currentCount (rl.getKeyAndLimit ip token).1 now + 1
        · cases hsb : fs.setBlockFails with
          | true =>
            rw [checkLimit_setBlock_err_eq rl fs s now ip token hfb hfi hsb hb hc] at hr
            simp at hr
          | false =>
            rw [checkLimit_exceeded_eq rl fs s now ip token hfb hfi hsb hb hc] at hr
            simp only [Option.some.injEq] at hr
            subst hr
            simp
        · push_neg at hc
          rw [checkLimit_allowed_eq rl fs s now ip token hfb hfi hb hc] at hr
          simp only [Option.some.injEq] at hr
          subst hr
          refine ⟨rfl, by simp; omega, by simp⟩

/-- C9 witness: the invariant holds for the decision returned to a
fresh IP identity at time 0. -/
theorem checkLimit_result_invariant_witness :
    (rlSample.checkLimit FailSpec.none Store.empty 0 "1.2.3.4" "").result
        = some ⟨true, 2, timeSecond, false⟩ ∧
    ((⟨true, 2, timeSecond, false⟩ : LimitResult).allowed
        = !(⟨true, 2, timeSecond, false⟩ : LimitResult).blocked ∧
      0 ≤ (⟨true, 2, timeSecond, false⟩ : LimitResult).remaining ∧
      ((⟨true, 2, timeSecond, false⟩ : LimitResult).allowed = false →
        (⟨true, 2, timeSecond, false⟩ : LimitResult).remaining = 0)) :=
  ⟨by decide,
    checkLimit_result_invariant rlSample FailSpec.none Store.empty 0 "1.2.3.4" ""
      ⟨true, 2, timeSecond, false⟩ (by decide)⟩

/-! ## C3: blocked identities short-circuit -/

/-- C3: when the resolved key is currently blocked and the block read
succeeds, `checkLimit` returns the blocked decision
`{allowed := false, remaining := 0, resetTime := now + blockDuration,
blocked := true}`, the store is left exactly as it was (no increment,
no setBlock), and the only storage call made is the single `isBlocked`
read. -/
theorem checkLimit_blocked_short_circuit (rl : RateLimiter) (fs : FailSpec)
    (s : Store) (now : Int) (ip token : String)
    (hfb : fs.isBlockedFails = false)
    (hb : s.isBlockedAt (rl.getKeyAndLimit ip token).1 now = true) :
    (rl.checkLimit fs s now ip token).result
      = some ⟨false, 0, now + rl.blockDuration, true⟩ ∧
    (rl.checkLimit fs s now ip token).errMsg = none ∧
    (rl.checkLimit fs s now ip token).store = s ∧
    (rl.checkLimit fs s now ip token).events
      = [.isBlockedCall (rl.getKeyAndLimit ip token).1] := by
  rw [checkLimit_blocked_eq rl fs s now ip token hfb hb]
  exact ⟨rfl, rfl, rfl, rfl⟩

/-- C3 witness: the key `"ip:9.9.9.9"` is blocked in `sBlocked` at
time 0, and the call short-circuits. -/
theorem checkLimit_blocked_short_circuit_witness :
    (FailSpec.none.isBlockedFails = false ∧
      sBlocked.isBlockedAt (rlSample.getKeyAndLimit "9.9.9.9" "").1 0 = true) ∧
    ((rlSample.checkLimit FailSpec.none sBlocked 0 "9.9.9.9" "").result
        = some ⟨false, 0, 0 + rlSample.blockDuration, true⟩ ∧
      (rlSample.checkLimit FailSpec.none sBlocked 0 "9.9.9.9" "").errMsg = none ∧
      (rlSample.checkLimit FailSpec.none sBlocked 0 "9.9.9.9" "").store = sBlocked ∧
      (rlSample.checkLimit FailSpec.none sBlocked 0 "9.9.9.9" "").events
        = [.isBlockedCall (rlSample.getKeyAndLimit "9.9.9.9" "").1]) :=
  ⟨⟨rfl, by decide⟩,
    checkLimit_blocked_short_circuit rlSample FailSpec.none sBlocked 0 "9.9.9.9" ""
      rfl (by decide)⟩

/-! ## C4: exceeding the limit sets a block -/

/-- A concrete store in which `"ip:9.9.9.9"` already counted 3
requests in a window expiring at time 100, and nothing is blocked. -/
def sFull : Store :=
  ⟨fun k => if k = "ip:9.9.9.9" then some (3, 100) else Option.none,
   fun _ => Option.none⟩

/-- C4: when the key is not blocked and the post-increment count
exceeds the limit, the engine calls `setBlock(key, blockDuration)`
(visible both in the call trace and in the resulting block state) and
returns `{allowed := false, remaining := 0, resetTime := now +
blockDuration, blocked := true}`. -/
theorem checkLimit_exceeded_blocks (rl : RateLimiter) (fs : FailSpec)
    (s : Store) (now : Int) (ip token : String)
    (hfb : fs.isBlockedFails = false) (hfi : fs.incrementFails = false)
    (hsb : fs.setBlockFails = false)
    (hb : s.isBlockedAt (rl.getKeyAndLimit ip token).1 now = false)
    (hc : (rl.getKeyAndLimit ip token).2
            < s.currentCount (rl.getKeyAndLimit ip token).1 now + 1) :
    (rl.checkLimit fs s now ip token).result
      = some ⟨false, 0, now + rl.blockDuration, true⟩ ∧
    (rl.checkLimit fs s now ip token).events
      = [.isBlockedCall (rl.getKeyAndLimit ip token).1,
         .incrementCall (rl.getKeyAndLimit ip token).1 timeSecond,
         .setBlockCall (rl.getKeyAndLimit ip token).1 rl.blockDuration] ∧
    (rl.checkLimit fs s now ip token).store.blocks (rl.getKeyAndLimit ip token).1
      = some (now + rl.blockDuration) := by
  rw [checkLimit_exceeded_eq rl fs s now ip token hfb hfi hsb hb hc]
  exact ⟨rfl, rfl, Store.setBlock_blocks_self _ _ _ _⟩

/-- C4 witness: with IP limit 3 and three requests already counted,
the fourth request at time 0 is rejected and blocks the key. -/
theorem checkLimit_exceeded_blocks_witness :
    (FailSpec.none.isBlockedFails = false ∧ FailSpec.none.incrementFails = false ∧
      FailSpec.none.setBlockFails = false ∧
      sFull.isBlockedAt (rlSample.getKeyAndLimit "9.9.9.9" "").1 0 = false ∧
      (rlSample.getKeyAndLimit "9.9.9.9" "").2
        < sFull.currentCount (rlSample.getKeyAndLimit "9.9.9.9" "").1 0 + 1) ∧
    ((rlSample.checkLimit FailSpec.none sFull 0 "9.9.9.9" "").result
        = some ⟨false, 0, 0 + rlSample.blockDuration, true⟩ ∧
      (rlSample.checkLimit FailSpec.none sFull 0 "9.9.9.9" "").events
        = [.isBlockedCall (rlSample.getKeyAndLimit "9.9.9.9" "").1,
           .incrementCall (rlSample.getKeyAndLimit "9.9.9.9" "").1 timeSecond,
           .setBlockCall (rlSample.getKeyAndLimit "9.9.9.9" "").1
             rlSample.blockDuration] ∧
      (rlSample.checkLimit FailSpec.none sFull 0 "9.9.9.9" "").store.blocks
          (rlSample.getKeyAndLimit "9.9.9.9" "").1
        = some (0 + rlSample.blockDuration)) :=
  ⟨⟨rfl, rfl, rfl, by decide, by decide⟩,
    checkLimit_exceeded_blocks rlSample FailSpec.none sFull 0 "9.9.9.9" ""
      rfl rfl rfl (by decide) (by decide)⟩

/-! ## C5: under the limit the request is allowed -/

/-- C5: when the key is not blocked and the post-increment count is at
most the limit, the decision is `{allowed := true, remaining := max 0
(limit - count), resetTime := now + 1 second, blocked := false}`; in
particular `remaining` is never negative. -/
theorem checkLimit_under_limit_allows (rl : RateLimiter) (fs : FailSpec)
    (s : Store) (now : Int) (ip token : String)
    (hfb : fs.isBlockedFails = false) (hfi : fs.incrementFails = false)
    (hb : s.isBlockedAt (rl.getKeyAndLimit ip token).1 now = false)
    (hc : s.currentCount (rl.getKeyAndLimit ip token).1 now + 1
            ≤ (rl.getKeyAndLimit ip token).2) :
    (rl.checkLimit fs s now ip token).result
      = some ⟨true,
          max 0 ((rl.getKeyAndLimit ip token).2
            - (s.currentCount (rl.getKeyAndLimit ip token).1 now + 1)),
          now + timeSecond, false⟩ ∧
    0 ≤ max 0 ((rl.getKeyAndLimit ip token).2
          - (s.currentCount (rl.getKeyAndLimit ip token).1 now + 1)) := by
  rw [checkLimit_allowed_eq rl fs s now ip token hfb hfi hb hc]
  have hm : max 0 ((rl.getKeyAndLimit ip token).2
        - (s.currentCount (rl.getKeyAndLimit ip token).1 now + 1))
      = (rl.getKeyAndLimit ip token).2
        - (s.currentCount (rl.getKeyAndLimit ip token).1 now + 1) := by
    omega
  rw [hm]
  exact ⟨rfl, by omega⟩

/-- C5 witness: the first request of a fresh IP identity with limit 3
is allowed with `remaining = 2`. -/
theorem checkLimit_under_limit_allows_witness :
    (FailSpec.none.isBlockedFails = false ∧ FailSpec.none.incrementFails = false ∧
      Store.empty.isBlockedAt (rlSample.getKeyAndLimit "1.2.3.4" "").1 0 = false ∧
      Store.empty.currentCount (rlSample.getKeyAndLimit "1.2.3.4" "").1 0 + 1
        ≤ (rlSample.getKeyAndLimit "1.2.3.4" "").2) ∧
    ((rlSample.checkLimit FailSpec.none Store.empty 0 "1.2.3.4" "").result
        = some ⟨true,
            max 0 ((rlSample.getKeyAndLimit "1.2.3.4" "").2
              - (Store.empty.currentCount (rlSample.getKeyAndLimit "1.2.3.4" "").1 0
                  + 1)),
            0 + timeSecond, false⟩ ∧
      0 ≤ max 0 ((rlSample.getKeyAndLimit "1.2.3.4" "").2
            - (Store.empty.currentCount (rlSample.getKeyAndLimit "1.2.3.4" "").1 0
                + 1))) :=
  ⟨⟨rfl, rfl, by decide, by decide⟩,
    checkLimit_under_limit_allows rlSample FailSpec.none Store.empty 0 "1.2.3.4" ""
      rfl rfl (by decide) (by decide)⟩

/-! ## C10: a non-positive limit rejects the first request -/

/-- A limit policy whose default IP limit is 0. -/
def rlZero : RateLimiter := ⟨0, 0, 600 * timeSecond, fun _ => Option.none⟩

/-- C10: if the resolved limit is zero or negative, the very first
`checkLimit` call on a fresh (unblocked, zero-count) key already
returns `allowed = false`, `blocked = true` and calls `setBlock`: the
post-increment count 1 exceeds the limit. -/
theorem checkLimit_nonpositive_limit_blocks (rl : RateLimiter) (fs : FailSpec)
    (s : Store) (now : Int) (ip token : String)
    (hfb : fs.isBlockedFails = false) (hfi : fs.incrementFails = false)
    (hsb : fs.setBlockFails = false)
    (hlim : (rl.getKeyAndLimit ip token).2 ≤ 0)
    (hb : s.isBlockedAt (rl.getKeyAndLimit ip token).1 now = false)
    (hcc : s.currentCount (rl.getKeyAndLimit ip token).1 now = 0) :
    (rl.checkLimit fs s now ip token).result
      = some ⟨false, 0, now + rl.blockDuration, true⟩ ∧
    countSetBlock (rl.checkLimit fs s now ip token).events = 1 ∧
    (rl.checkLimit fs s now ip token).store.blocks (rl.getKeyAndLimit ip token).1
      = some (now + rl.blockDuration) := by
  have hc : (rl.getKeyAndLimit ip token).2
      < s.currentCount (rl.getKeyAndLimit ip token).1 now + 1 := by omega
  rw [checkLimit_exceeded_eq rl fs s now ip token hfb hfi hsb hb hc]
  exact ⟨rfl, rfl, Store.setBlock_blocks_self _ _ _ _⟩

/-- C10 witness: with default IP limit 0, the first request of a fresh
key at time 0 is rejected and blocked. -/
theorem checkLimit_nonpositive_limit_blocks_witness :
    (FailSpec.none.isBlockedFails = false ∧ FailSpec.none.incrementFails = false ∧
      FailSpec.none.setBlockFails = false ∧
      (rlZero.getKeyAndLimit "1.2.3.4" "").2 ≤ 0 ∧
      Store.empty.isBlockedAt (rlZero.getKeyAndLimit "1.2.3.4" "").1 0 = false ∧
      Store.empty.currentCount (rlZero.getKeyAndLimit "1.2.3.4" "").1 0 = 0) ∧
    ((rlZero.checkLimit FailSpec.none Store.empty 0 "1.2.3.4" "").result
        = some ⟨false, 0, 0 + rlZero.blockDuration, true⟩ ∧
      countSetBlock (rlZero.checkLimit FailSpec.none Store.empty 0 "1.2.3.4" "").events
        = 1 ∧
      (rlZero.checkLimit FailSpec.none Store.empty 0 "1.2.3.4" "").store.blocks
          (rlZero.getKeyAndLimit "1.2.3.4" "").1
        = some (0 + rlZero.blockDuration)) :=
  ⟨⟨rfl, rfl, rfl, by decide, by decide, by decide⟩,
    checkLimit_nonpositive_limit_blocks rlZero FailSpec.none Store.empty 0 "1.2.3.4" ""
      rfl rfl rfl (by decide) (by decide) (by decide)⟩

/-! ## C6: storage errors propagate, never become decisions -/

/-- On every input, `checkLimit` returns no decision exactly when it
returns an error. -/
lemma checkLimit_result_none_iff (rl : RateLimiter) (g : FailSpec) (s2 : Store)
    (t : Int) (j w : String) :
    (rl.checkLimit g s2 t j w).result = none
      ↔ (rl.checkLimit g s2 t j w).errMsg ≠ none := by
  cases hfb : g.isBlockedFails with
  | true => rw [checkLimit_isBlocked_err_eq rl g s2 t j w hfb]; simp
  | false =>
    cases hb : s2.isBlockedAt (rl.getKeyAndLimit j w).1 t with
    | true => rw [checkLimit_blocked_eq rl g s2 t j w hfb hb]; simp
    | false =>
      cases hfi : g.incrementFails with
      | true => rw [checkLimit_increment_err_eq rl g s2 t j w hfb hfi hb]; simp
      | false =>
        by_cases hc : (rl.getKeyAndLimit j w).2
            < s2.currentCount (rl.getKeyAndLimit j w).1 t + 1
        · cases hsb : g.setBlockFails with
          | true => rw [checkLimit_setBlock_err_eq rl g s2 t j w hfb hfi hsb hb hc]; simp
          | false => rw [checkLimit_exceeded_eq rl g s2 t j w hfb hfi hsb hb hc]; simp
        · push_neg at hc
          rw [checkLimit_allowed_eq rl g s2 t j w hfb hfi hb hc]; simp

/-- C6: whichever storage operation fails (`isBlocked`, `increment`,
or `setBlock`), `checkLimit` returns an error and no decision — and in
general the decision is absent exactly when the error is present, so
an error is never mapped to an allowed or denied decision.  An
`isBlocked` or `increment` failure leaves the store untouched; a
`setBlock` failure after a successful increment leaves the incremented
count in place (no rollback) while recording no block. -/
theorem checkLimit_storage_error_propagates (rl : RateLimiter) (g : FailSpec)
    (s : Store) (now : Int) (ip token : String) :
    ((rl.checkLimit g s now ip token).result = none
      ↔ (rl.checkLimit g s now ip token).errMsg ≠ none) ∧
    (g.isBlockedFails = true →
      (rl.checkLimit g s now ip token).result = none ∧
      (rl.checkLimit g s now ip token).errMsg ≠ none ∧
      (rl.checkLimit g s now ip token).store = s) ∧
    (g.isBlockedFails = false → g.incrementFails = true →
      s.isBlockedAt (rl.getKeyAndLimit ip token).1 now = false →
      (rl.checkLimit g s now ip token).result = none ∧
      (rl.checkLimit g s now ip token).errMsg ≠ none ∧
      (rl.checkLimit g s now ip token).store = s) ∧
    (g.isBlockedFails = false → g.incrementFails = false →
      g.setBlockFails = true →
      s.isBlockedAt (rl.getKeyAndLimit ip token).1 now = false →
      (rl.getKeyAndLimit ip token).2
          < s.currentCount (rl.getKeyAndLimit ip token).1 now + 1 →
      (rl.checkLimit g s now ip token).result = none ∧
      (rl.checkLimit g s now ip token).errMsg
        = some "failed to set block: storage unavailable" ∧
      (rl.checkLimit g s now ip token).store.counts (rl.getKeyAndLimit ip token).1
        = some (s.currentCount (rl.getKeyAndLimit ip token).1 now + 1,
            now + timeSecond) ∧
      (rl.checkLimit g s now ip token).store.blocks (rl.getKeyAndLimit ip token).1
        = s.blocks (rl.getKeyAndLimit ip token).1) := by
  refine ⟨checkLimit_result_none_iff rl g s now ip token, ?_, ?_, ?_⟩
  · intro hfb
    rw [checkLimit_isBlocked_err_eq rl g s now ip token hfb]
    exact ⟨rfl, by simp, rfl⟩
  · intro hfb hfi hb
    rw [checkLimit_increment_err_eq rl g s now ip token hfb hfi hb]
    exact ⟨rfl, by simp, rfl⟩
  · intro hfb hfi hsb hb hc
    rw [checkLimit_setBlock_err_eq rl g s now ip token hfb hfi hsb hb hc]
    exact ⟨rfl, rfl, Store.increment_counts_self s _ timeSecond now,
      congrFun (Store.increment_blocks s _ timeSecond now) _⟩

/-- C6 witness: each of the three failure modes injected on the
over-limit fourth request of `"ip:9.9.9.9"`: an `isBlocked` or
`increment` failure yields an error with the store untouched; a
`setBlock` failure yields an error, keeps the incremented counter, and
records no block. -/
theorem checkLimit_storage_error_propagates_witness :
    ((rlSample.checkLimit ⟨true, false, false⟩ sFull 0 "9.9.9.9" "").result = none ∧
      (rlSample.checkLimit ⟨true, false, false⟩ sFull 0 "9.9.9.9" "").errMsg ≠ none ∧
      (rlSample.checkLimit ⟨true, false, false⟩ sFull 0 "9.9.9.9" "").store = sFull) ∧
    ((rlSample.checkLimit ⟨false, true, false⟩ sFull 0 "9.9.9.9" "").result = none ∧
      (rlSample.checkLimit ⟨false, true, false⟩ sFull 0 "9.9.9.9" "").errMsg ≠ none ∧
      (rlSample.checkLimit ⟨false, true, false⟩ sFull 0 "9.9.9.9" "").store = sFull) ∧
    ((rlSample.checkLimit ⟨false, false, true⟩ sFull 0 "9.9.9.9" "").result = none ∧
      (rlSample.checkLimit ⟨false, false, true⟩ sFull 0 "9.9.9.9" "").errMsg
        = some "failed to set block: storage unavailable" ∧
      (rlSample.checkLimit ⟨false, false, true⟩ sFull 0 "9.9.9.9" "").store.counts
          (rlSample.getKeyAndLimit "9.9.9.9" "").1
        = some (sFull.currentCount (rlSample.getKeyAndLimit "9.9.9.9" "").1 0 + 1,
            0 + timeSecond) ∧
      (rlSample.checkLimit ⟨false, false, true⟩ sFull 0 "9.9.9.9" "").store.blocks
          (rlSample.getKeyAndLimit "9.9.9.9" "").1
        = sFull.blocks (rlSample.getKeyAndLimit "9.9.9.9" "").1) :=
  ⟨(checkLimit_storage_error_propagates rlSample ⟨true, false, false⟩ sFull 0
      "9.9.9.9" "").2.1 rfl,
    (checkLimit_storage_error_propagates rlSample ⟨false, true, false⟩ sFull 0
      "9.9.9.9" "").2.2.1 rfl rfl (by decide),
    (checkLimit_storage_error_propagates rlSample ⟨false, false, true⟩ sFull 0
      "9.9.9.9" "").2.2.2 rfl rfl rfl (by decide) (by decide)⟩

/-! ## C1: exhausting a window -/

lemma countSetBlock_append (a b : List StoreEvent) :
    countSetBlock (a ++ b) = countSetBlock a + countSetBlock b :=
  List.countP_append _ _ _

lemma checkSeq_succ (rl : RateLimiter) (fs : FailSpec) (now : Int)
    (ip token : String) (n : Nat) (s : Store) :
    rl.checkSeq fs now ip token (n + 1) s
      = ((rl.checkSeq fs now ip token n (rl.checkLimit fs s now ip token).store).1,
         (rl.checkLimit fs s now ip token)
           :: (rl.checkSeq fs now ip token n
                (rl.checkLimit fs s now ip token).store).2) := by
  simp [RateLimiter.checkSeq]

/-- Splitting a call sequence: `m + n` calls are the first `m` calls
followed by `n` calls from the intermediate store. -/
lemma checkSeq_add (rl : RateLimiter) (fs : FailSpec) (now : Int)
    (ip token : String) (n : Nat) (m : Nat) :
    ∀ (s : Store),
    rl.checkSeq fs now ip token (m + n) s
      = ((rl.checkSeq fs now ip token n (rl.checkSeq fs now ip token m s).1).1,
         (rl.checkSeq fs now ip token m s).2
           ++ (rl.checkSeq fs now ip token n
                (rl.checkSeq fs now ip token m s).1).2) := by
  induction m with
  | zero => intro s; simp [RateLimiter.checkSeq]
  | succ m ih =>
    intro s
    rw [Nat.succ_add, checkSeq_succ, checkSeq_succ, ih]
    simp

/-- Invariant run: starting unblocked with count `c`, as long as
`c + n` stays within the limit, `n` calls are all allowed with
remaining `limit - (c + i + 1)` at the `i`-th call, the final store is
still unblocked with count `c + n`, and no `setBlock` call occurs. -/
lemma checkSeq_allowed_run (rl : RateLimiter) (now : Int) (ip token : String)
    (n : Nat) :
    ∀ (s : Store) (c : Int),
      s.isBlockedAt (rl.getKeyAndLimit ip token).1 now = false →
      s.currentCount (rl.getKeyAndLimit ip token).1 now = c →
      c + n ≤ (rl.getKeyAndLimit ip token).2 →
      ((rl.checkSeq FailSpec.none now ip token n s).2.map (fun o => o.result)
          = (List.range n).map (fun i =>
              some ⟨true, (rl.getKeyAndLimit ip token).2 - (c + i + 1),
                now + timeSecond, false⟩)) ∧
      (rl.checkSeq FailSpec.none now ip token n s).1.isBlockedAt
          (rl.getKeyAndLimit ip token).1 now = false ∧
      (rl.checkSeq FailSpec.none now ip token n s).1.currentCount
          (rl.getKeyAndLimit ip token).1 now = c + n ∧
      countSetBlock ((rl.checkSeq FailSpec.none now ip token n s).2.flatMap
          (fun o => o.events)) = 0 := by
  induction n with
  | zero =>
    intro s c hb hcc hle
    simp [RateLimiter.checkSeq, countSetBlock, hb, hcc]
  | succ n ih =>
    intro s c hb hcc hle
    have hc1 : s.currentCount (rl.getKeyAndLimit ip token).1 now + 1
        ≤ (rl.getKeyAndLimit ip token).2 := by
      rw [hcc]
      push_cast at hle
      omega
    have hstep := checkLimit_allowed_eq rl FailSpec.none s now ip token rfl rfl hb hc1
    have hb2 : ((s.increment (rl.getKeyAndLimit ip token).1 timeSecond now).2).isBlockedAt
        (rl.getKeyAndLimit ip token).1 now = false := by
      rw [Store.increment_isBlockedAt]
      exact hb
    have hcc2 : ((s.increment (rl.getKeyAndLimit ip token).1 timeSecond now).2).currentCount
        (rl.getKeyAndLimit ip token).1 now = c + 1 := by
      rw [Store.increment_currentCount_self s _ timeSecond now (by norm_num [timeSecond]),
        hcc]
    have hle2 : (c + 1) + (n : Int) ≤ (rl.getKeyAndLimit ip token).2 := by
      push_cast at hle
      omega
    obtain ⟨ihmap, ihb, ihcc, ihcnt⟩ :=
      ih ((s.increment (rl.getKeyAndLimit ip token).1 timeSecond now).2) (c + 1)
        hb2 hcc2 hle2
    rw [checkSeq_succ, hstep]
    dsimp only
    refine ⟨?_, ihb, ?_, ?_⟩
    · rw [List.map_cons, ihmap, List.range_succ_eq_map, List.map_cons, List.map_map]
      congr 1
      · simp [hcc]
      · refine List.map_congr_left fun i hi => ?_
        simp only [Function.comp_apply, Option.some.injEq, LimitResult.mk.injEq,
          true_and, and_true]
        push_cast
        ring
    · rw [ihcc]
      push_cast
      ring
    · rw [List.flatMap_cons, countSetBlock_append, ihcnt]
      simp [countSetBlock]

/-- C1: for a limit `L ≥ 1` and a fresh key (zero count, not blocked),
`L + 1` sequential `checkLimit` calls within one window produce: calls
1 through `L` allowed with remaining strictly decreasing `L-1, L-2,
…, 0` (remaining `L - i` at the 1-based `i`-th call, reaching 0 at the
`L`-th), then the `(L+1)`-th call rejected with `allowed = false`,
`blocked = true`, `remaining = 0`; and exactly one `setBlock` call
occurs across the whole sequence. -/
theorem checkLimit_window_exhaustion (rl : RateLimiter) (s : Store) (now : Int)
    (ip token : String) (L : Nat) (hL : 1 ≤ L)
    (hlim : (rl.getKeyAndLimit ip token).2 = (L : Int))
    (hb : s.isBlockedAt (rl.getKeyAndLimit ip token).1 now = false)
    (hcc : s.currentCount (rl.getKeyAndLimit ip token).1 now = 0) :
    ((rl.checkSeq FailSpec.none now ip token (L + 1) s).2.map (fun o => o.result)
        = ((List.range L).map fun i =>
            some ⟨true, (L : Int) - ((i : Int) + 1), now + timeSecond, false⟩)
          ++ [some ⟨false, 0, now + rl.blockDuration, true⟩]) ∧
    countSetBlock ((rl.checkSeq FailSpec.none now ip token (L + 1) s).2.flatMap
        (fun o => o.events)) = 1 := by
  obtain ⟨hmap, hb2, hcc2, hcnt⟩ :=
    checkSeq_allowed_run rl now ip token L s 0 hb hcc (by rw [hlim]; omega)
  have hcL : (rl.getKeyAndLimit ip token).2
      < (rl.checkSeq FailSpec.none now ip token L s).1.currentCount
          (rl.getKeyAndLimit ip token).1 now + 1 := by
    rw [hcc2, hlim]
    omega
  have hfinal := checkLimit_exceeded_eq rl FailSpec.none
    ((rl.checkSeq FailSpec.none now ip token L s).1) now ip token rfl rfl rfl hb2 hcL
  rw [checkSeq_add rl FailSpec.none now ip token 1 L s]
  constructor
  · rw [List.map_append, hmap]
    congr 1
    · refine List.map_congr_left fun i hi => ?_
      rw [hlim]
      norm_num
    · rw [checkSeq_succ, hfinal]
      simp [RateLimiter.checkSeq]
  · rw [List.flatMap_append, countSetBlock_append, hcnt]
    rw [checkSeq_succ, hfinal]
    simp [RateLimiter.checkSeq, countSetBlock]

/-- C1 witness: the spec scenario — IP limit 3, fresh key, four calls:
remaining 2, 1, 0, then rejected and blocked, with one `setBlock`. -/
theorem checkLimit_window_exhaustion_witness :
    (1 ≤ 3 ∧ (rlSample.getKeyAndLimit "1.2.3.4" "").2 = ((3 : Nat) : Int) ∧
      Store.empty.isBlockedAt (rlSample.getKeyAndLimit "1.2.3.4" "").1 0 = false ∧
      Store.empty.currentCount (rlSample.getKeyAndLimit "1.2.3.4" "").1 0 = 0) ∧
    (((rlSample.checkSeq FailSpec.none 0 "1.2.3.4" "" (3 + 1) Store.empty).2.map
          (fun o => o.result)
        = ((List.range 3).map fun i =>
            some ⟨true, ((3 : Nat) : Int) - ((i : Int) + 1), 0 + timeSecond, false⟩)
          ++ [some ⟨false, 0, 0 + rlSample.blockDuration, true⟩]) ∧
      countSetBlock ((rlSample.checkSeq FailSpec.none 0 "1.2.3.4" "" (3 + 1)
          Store.empty).2.flatMap (fun o => o.events)) = 1) :=
  ⟨⟨by decide, by decide, by decide, by decide⟩,
    checkLimit_window_exhaustion rlSample Store.empty 0 "1.2.3.4" "" 3
      (by decide) (by decide) (by decide) (by decide)⟩
